import Mathlib

/-!
Verification of the `docs/conf.py` configuration module of the
`jbcom/nodejs-agentic-control` repository.

The module is shallowly embedded: Python literal values become `PyVal`,
the interpreter state visible to the module (current working directory,
`sys.path`, bound module names, the module-level configuration bindings,
and a frame of unrelated interpreter state) becomes `Interp`, and the
module body becomes a list of statements `confStmts` executed in source
order by `execStmts`.  Evaluation is fallible (`Except`) so that the
claim that loading never raises can be stated.
-/

/-- A Python value as it appears in the configuration file: `None`,
booleans, integers, strings, lists, tuples and string-keyed dicts. -/
inductive PyVal where
  | none  : PyVal
  | bool  : Bool → PyVal
  | int   : Int → PyVal
  | str   : String → PyVal
  | list  : List PyVal → PyVal
  | tuple : List PyVal → PyVal
  | dict  : List (String × PyVal) → PyVal

/-- Interpreter state visible to the configuration module: the current
working directory, `sys.path`, the module names bound by `import`
statements, the module-level configuration bindings, and a frame of
unrelated interpreter state that the module never touches. -/
structure Interp where
  cwd : String
  sysPath : List String
  modules : List String
  config : List (String × PyVal)
  otherState : List (String × String)

/-- Path components of a POSIX path string: split on `/`, dropping empty
components and `.` components, as `os.path.normpath` does. -/
def splitPath (s : String) : List String :=
  (s.splitOn "/").filter (fun c => c ≠ "" && c ≠ ".")

/-- Resolve `..` components left to right; a `..` at the root of an
absolute path is dropped, as `os.path.normpath` does. -/
def resolveDots (cs : List String) : List String :=
  cs.foldl (fun acc c => if c = ".." then acc.dropLast else acc ++ [c]) []

/-- `os.path.abspath rel` on POSIX with current working directory `cwd`
(assumed absolute): join `cwd` with `rel` unless `rel` is already
absolute, then normalize. -/
def posixAbspath (cwd rel : String) : String :=
  let comps :=
    if rel.startsWith "/" then splitPath rel
    else splitPath cwd ++ splitPath rel
  "/" ++ String.intercalate "/" (resolveDots comps)

/-- `l.insert` at position `n` (the effect of `list.insert(n, a)` for the
in-range indices the module uses). -/
def listInsertAt (n : Nat) (a : α) (l : List α) : List α :=
  l.take n ++ a :: l.drop n

/-- Bind `k` to `v` in a module namespace kept in insertion order:
rebinding replaces in place, a fresh name is appended. -/
def setKey (k : String) (v : PyVal) : List (String × PyVal) → List (String × PyVal)
  | [] => [(k, v)]
  | (k₀, v₀) :: rest =>
      if k₀ = k then (k, v) :: rest else (k₀, v₀) :: setKey k v rest

/-- An expression occurring on the right side of a statement of the
module: a literal, or the call `os.path.abspath(rel)`. -/
inductive Expr where
  | lit : PyVal → Expr
  | abspathCall : String → Expr

/-- A top-level statement of the module: an `import`, the call
`sys.path.insert(idx, e)`, or an assignment `key = e`. -/
inductive Stmt where
  | importModule : String → Stmt
  | sysPathInsert : Nat → Expr → Stmt
  | assign : String → Expr → Stmt

/-- The module names the Python interpreter can always import. -/
def stdlibModules : List String := ["os", "sys"]

/-- Evaluate an expression; `os.path.abspath` raises `NameError` when
`os` is not bound. -/
def evalExpr (st : Interp) : Expr → Except String PyVal
  | .lit v => .ok v
  | .abspathCall rel =>
      if st.modules.contains "os" then
        .ok (.str (posixAbspath st.cwd rel))
      else .error "NameError: name os is not defined"

/-- Execute one statement.  Importing a missing module raises
`ModuleNotFoundError`; using `sys` unbound raises `NameError`;
inserting a non-string into `sys.path` is rejected by this model. -/
def execStmt (st : Interp) : Stmt → Except String Interp
  | .importModule n =>
      if stdlibModules.contains n then
        .ok { st with modules := n :: st.modules }
      else .error "ModuleNotFoundError"
  | .sysPathInsert idx e =>
      if st.modules.contains "sys" then
        match evalExpr st e with
        | .ok (.str s) => .ok { st with sysPath := listInsertAt idx s st.sysPath }
        | .ok _ => .error "TypeError"
        | .error m => .error m
      else .error "NameError: name sys is not defined"
  | .assign k e =>
      match evalExpr st e with
      | .ok v => .ok { st with config := setKey k v st.config }
      | .error m => .error m

/-- Execute a list of statements in order, stopping at the first error. -/
def execStmts : List Stmt → Interp → Except String Interp
  | [], st => .ok st
  | s :: rest, st =>
      match execStmt st s with
      | .ok st₂ => execStmts rest st₂
      | .error m => .error m

/-- The body of `docs/conf.py`, statement by statement in source order. -/
def confStmts : List Stmt := [
  .importModule "os",
  .importModule "sys",
  .sysPathInsert 0 (.abspathCall "../python/src"),
  .assign "project" (.lit (.str "agentic-control")),
  .assign "copyright" (.lit (.str "2025, Jon Bogaty")),
  .assign "author" (.lit (.str "Jon Bogaty")),
  .assign "release" (.lit (.str "1.1.0")),
  .assign "extensions" (.lit (.list [
    .str "sphinx.ext.autodoc",
    .str "sphinx.ext.autosummary",
    .str "sphinx.ext.napoleon",
    .str "sphinx.ext.viewcode",
    .str "sphinx.ext.intersphinx",
    .str "sphinx_autodoc_typehints",
    .str "sphinx_js",
    .str "myst_parser",
    .str "sphinxcontrib.mermaid"])),
  .assign "templates_path" (.lit (.list [.str "_templates"])),
  .assign "exclude_patterns" (.lit (.list [
    .str "_build", .str "Thumbs.db", .str ".DS_Store"])),
  .assign "source_suffix" (.lit (.dict [
    (".rst", .str "restructuredtext"),
    (".md", .str "markdown")])),
  .assign "html_theme" (.lit (.str "sphinx_rtd_theme")),
  .assign "html_static_path" (.lit (.list [.str "_static"])),
  .assign "html_title" (.lit (.str "agentic-control Documentation")),
  .assign "html_short_title" (.lit (.str "agentic-control")),
  .assign "html_theme_options" (.lit (.dict [
    ("navigation_depth", .int 4),
    ("collapse_navigation", .bool false),
    ("sticky_navigation", .bool true),
    ("includehidden", .bool true),
    ("titles_only", .bool false)])),
  .assign "autodoc_default_options" (.lit (.dict [
    ("members", .bool true),
    ("member-order", .str "bysource"),
    ("special-members", .str "__init__"),
    ("undoc-members", .bool true),
    ("exclude-members", .str "__weakref__"),
    ("show-inheritance", .bool true)])),
  .assign "autodoc_typehints" (.lit (.str "description")),
  .assign "autodoc_class_signature" (.lit (.str "separated")),
  .assign "autosummary_generate" (.lit (.bool true)),
  .assign "napoleon_google_docstring" (.lit (.bool true)),
  .assign "napoleon_numpy_docstring" (.lit (.bool true)),
  .assign "napoleon_include_init_with_doc" (.lit (.bool true)),
  .assign "napoleon_include_private_with_doc" (.lit (.bool false)),
  .assign "napoleon_include_special_with_doc" (.lit (.bool true)),
  .assign "napoleon_use_admonition_for_examples" (.lit (.bool true)),
  .assign "napoleon_use_admonition_for_notes" (.lit (.bool true)),
  .assign "napoleon_use_admonition_for_references" (.lit (.bool true)),
  .assign "napoleon_use_ivar" (.lit (.bool false)),
  .assign "napoleon_use_param" (.lit (.bool true)),
  .assign "napoleon_use_rtype" (.lit (.bool true)),
  .assign "napoleon_preprocess_types" (.lit (.bool true)),
  .assign "napoleon_attr_annotations" (.lit (.bool true)),
  .assign "js_language" (.lit (.str "typescript")),
  .assign "js_source_path" (.lit (.list [.str "../src"])),
  .assign "jsdoc_config_path" (.lit (.str "../typedoc.json")),
  .assign "root_for_relative_js_paths" (.lit (.str "../src")),
  .assign "intersphinx_mapping" (.lit (.dict [
    ("python", .tuple [.str "https://docs.python.org/3", .none])])),
  .assign "myst_enable_extensions" (.lit (.list [
    .str "colon_fence",
    .str "deflist",
    .str "fieldlist",
    .str "html_admonition",
    .str "html_image",
    .str "replacements",
    .str "smartquotes",
    .str "strikethrough",
    .str "substitution",
    .str "tasklist"])),
  .assign "myst_heading_anchors" (.lit (.int 3)),
  .assign "html_css_files" (.lit (.list [.str "custom.css"]))]

/-- The initial interpreter state for an evaluation environment: nothing
imported, no configuration bound yet. -/
def initInterp (cwd : String) (sp : List String)
    (other : List (String × String)) : Interp :=
  { cwd := cwd, sysPath := sp, modules := [], config := [], otherState := other }

/-- Evaluate the whole configuration module in the environment given by a
working directory, an initial `sys.path` and a frame of unrelated state. -/
def confRun (cwd : String) (sp : List String)
    (other : List (String × String)) : Except String Interp :=
  execStmts confStmts (initInterp cwd sp other)

/-- The module-level configuration table `conf.py` binds, key by key in
source order (the result of running the module, stated as a literal). -/
def confTable : List (String × PyVal) :=
  (confStmts.filterMap fun s =>
    match s with
    | .assign k (.lit v) => some (k, v)
    | _ => Option.none)

/-- Look up a key in a string-keyed table, first binding wins. -/
def lookupKey (k : String) : List (String × PyVal) → Option PyVal
  | [] => Option.none
  | (k₀, v) :: rest => if k₀ = k then some v else lookupKey k rest

/-- Look up a configuration key in the bound table. -/
def lookupConf (k : String) : Option PyVal :=
  lookupKey k confTable

set_option maxHeartbeats 2000000 in
/-- Running the module from any environment succeeds and produces
exactly: the same working directory, `sys.path` with the absolute path
of `../python/src` prepended, the bindings `sys` and `os`, the literal
configuration table, and the untouched frame of unrelated state. -/
theorem confRun_eq (cwd : String) (sp : List String)
    (other : List (String × String)) :
    confRun cwd sp other = .ok
      { cwd := cwd,
        sysPath := posixAbspath cwd "../python/src" :: sp,
        modules := ["sys", "os"],
        config := confTable,
        otherState := other } := by
  simp [confRun, confStmts, initInterp, execStmts, execStmt, evalExpr,
    stdlibModules, listInsertAt, setKey, confTable]

/-- Is the value a string? -/
def isStrVal : PyVal → Bool
  | .str _ => true
  | _ => false

/-- Is the value a boolean? -/
def isBoolVal : PyVal → Bool
  | .bool _ => true
  | _ => false

/-- Is the value scalar (string, boolean, integer or `None`)? -/
def isScalarVal : PyVal → Bool
  | .str _ => true
  | .bool _ => true
  | .int _ => true
  | .none => true
  | _ => false

/-- Is the value a dict? -/
def isDictVal : PyVal → Bool
  | .dict _ => true
  | _ => false

/-- Is the value a dict all of whose entry values are scalars
(a flat key/value mapping)? -/
def isFlatDict : PyVal → Bool
  | .dict es => es.all (fun e => isScalarVal e.2)
  | _ => false

/-- Is the value a list all of whose elements are strings? -/
def isStrListVal : PyVal → Bool
  | .list vs => vs.all isStrVal
  | _ => false

/-- Is the value a two-element tuple whose first component is a string
(a documentation-URL / inventory pair)? -/
def isUrlInventoryPair : PyVal → Bool
  | .tuple [.str _, _] => true
  | _ => false

/-- Does every entry value of a dict satisfy `p`? -/
def dictAll (p : PyVal → Bool) : PyVal → Bool
  | .dict es => es.all (fun e => p e.2)
  | _ => false

/-- Does the optional value exist and satisfy `p`? -/
def optValIs (p : PyVal → Bool) : Option PyVal → Bool
  | some v => p v
  | Option.none => false

/-- Look up an entry of an optional dict value. -/
def dictGet (k : String) : Option PyVal → Option PyVal
  | some (.dict es) => lookupKey k es
  | _ => Option.none

/-- The configuration keys declared (bound at module top level) by the
configuration file. -/
def declaredConfigKeys : List String := confTable.map Prod.fst

/-- The keys listed explicitly in the table of spec section 6
(modelled from the spec: the `Key` column rows, with the `napoleon_*`
wildcard row handled separately by `specTableCoversKey`). -/
def specTableKeys : List String := [
  "project", "author", "release", "copyright",
  "extensions",
  "templates_path", "exclude_patterns",
  "source_suffix",
  "html_theme", "html_theme_options", "html_static_path", "html_title",
  "autodoc_default_options", "autodoc_typehints", "autodoc_class_signature",
  "autosummary_generate",
  "js_language", "js_source_path", "jsdoc_config_path",
  "root_for_relative_js_paths",
  "intersphinx_mapping",
  "myst_enable_extensions", "myst_heading_anchors",
  "html_css_files"]

/-- Does `p` occur as a prefix of `s`?  Stated over the character lists
so that it evaluates by plain structural recursion. -/
def strHasPrefix (p s : String) : Bool :=
  p.data.isPrefixOf s.data

/-- Modelled from the spec: a key is covered by the table of spec
section 6 when it is one of the listed keys or matches the
`napoleon_*` wildcard row. -/
def specTableCoversKey (k : String) : Bool :=
  specTableKeys.contains k || strHasPrefix "napoleon_" k

/-- The configuration bindings whose key belongs to the napoleon group. -/
def napoleonEntries : List (String × PyVal) :=
  confTable.filter (fun e => strHasPrefix "napoleon_" e.1)

/-- The configuration table a run produced (empty on error). -/
def resultConfig : Except String Interp → List (String × PyVal)
  | .ok r => r.config
  | .error _ => []

/-- The `sys.path` a run left behind (empty on error). -/
def resultSysPath : Except String Interp → List String
  | .ok r => r.sysPath
  | .error _ => []

/-- The working directory a run left behind (empty on error). -/
def resultCwd : Except String Interp → String
  | .ok r => r.cwd
  | .error _ => ""

/-- The unrelated interpreter state a run left behind (empty on error). -/
def resultOther : Except String Interp → List (String × String)
  | .ok r => r.otherState
  | .error _ => []

/-- Did the run succeed (no exception raised)? -/
def exceptIsOk : Except String Interp → Bool
  | .ok _ => true
  | .error _ => false

/-- Claim C1, counterexample: at the concrete environment with working
directory `/repo/docs` and `sys.path = ["/usr/lib/python3"]`, loading
the module leaves `sys.path` changed, so interpreter state outside the
configuration table is mutated. -/
theorem C1_sysPath_mutated :
    resultSysPath (confRun "/repo/docs" ["/usr/lib/python3"] []) ≠
      ["/usr/lib/python3"] := by
  rw [confRun_eq]
  simp [resultSysPath]

/-- Claim C1, amended: evaluating the module binds the configuration
table and, beyond that, performs exactly one mutation of interpreter
state: it prepends the absolute path of `../python/src` to `sys.path`
(the imported names `os` and `sys` are bound in the module's own
namespace); the working directory and all unrelated interpreter state
are unchanged. -/
theorem C1_state_effects (cwd : String) (sp : List String)
    (other : List (String × String)) :
    resultConfig (confRun cwd sp other) = confTable ∧
    resultSysPath (confRun cwd sp other) =
      posixAbspath cwd "../python/src" :: sp ∧
    resultCwd (confRun cwd sp other) = cwd ∧
    resultOther (confRun cwd sp other) = other := by
  rw [confRun_eq]
  exact ⟨rfl, rfl, rfl, rfl⟩

/-- Claim C2, counterexample: `html_short_title` is bound at module top
level by the configuration file but is covered by no row of the table
in spec section 6. -/
theorem C2_key_outside_table :
    declaredConfigKeys.contains "html_short_title" = true ∧
    specTableCoversKey "html_short_title" = false := by
  constructor <;> decide

/-- Claim C2, amended: every configuration key declared (bound at
module top level) by the configuration file, except `html_short_title`,
appears in (is covered by a row of) the table of spec section 6. -/
theorem C2_keys_covered (k : String) (hk : k ∈ declaredConfigKeys)
    (hne : k ≠ "html_short_title") : specTableCoversKey k = true := by
  have ht : declaredConfigKeys =
      ["project", "copyright", "author", "release", "extensions",
       "templates_path", "exclude_patterns", "source_suffix", "html_theme",
       "html_static_path", "html_title", "html_short_title",
       "html_theme_options", "autodoc_default_options", "autodoc_typehints",
       "autodoc_class_signature", "autosummary_generate",
       "napoleon_google_docstring", "napoleon_numpy_docstring",
       "napoleon_include_init_with_doc", "napoleon_include_private_with_doc",
       "napoleon_include_special_with_doc",
       "napoleon_use_admonition_for_examples",
       "napoleon_use_admonition_for_notes",
       "napoleon_use_admonition_for_references", "napoleon_use_ivar",
       "napoleon_use_param", "napoleon_use_rtype",
       "napoleon_preprocess_types", "napoleon_attr_annotations",
       "js_language", "js_source_path", "jsdoc_config_path",
       "root_for_relative_js_paths", "intersphinx_mapping",
       "myst_enable_extensions", "myst_heading_anchors",
       "html_css_files"] := rfl
  rw [ht] at hk
  fin_cases hk <;> first | exact absurd rfl hne | decide

/-- Claim C2 witness: the declared key `project` is covered by the
spec table. -/
theorem C2_keys_covered_witness : specTableCoversKey "project" = true :=
  C2_keys_covered "project" (by decide) (by decide)

/-- Claim C3, counterexample: the napoleon toggles are not a single
dictionary-valued setting: thirteen distinct napoleon-prefixed keys are
bound at top level, every one of them to a boolean, and no binding in
the whole table pairs a napoleon-prefixed key with a dict value. -/
theorem C3_napoleon_not_dict :
    napoleonEntries.length = 13 ∧
    napoleonEntries.all (fun e => isBoolVal e.2) = true ∧
    confTable.all (fun e => !(strHasPrefix "napoleon" e.1 && isDictVal e.2)) =
      true := by
  refine ⟨?_, ?_, ?_⟩ <;> decide

/-- Claim C3, amended: the theme options and the autodoc defaults are
each a single dictionary-valued setting whose entries are flat (scalar
valued); the napoleon toggles are instead represented as thirteen
separate top-level boolean settings. -/
theorem C3_group_shapes :
    optValIs isFlatDict (lookupConf "html_theme_options") = true ∧
    optValIs isFlatDict (lookupConf "autodoc_default_options") = true ∧
    napoleonEntries.length = 13 ∧
    napoleonEntries.all (fun e => isBoolVal e.2) = true := by
  refine ⟨?_, ?_, ?_, ?_⟩ <;> decide

/-- Claim C4: `source_suffix` maps exactly `.rst` to the
reStructuredText parser and `.md` to the Markdown parser. -/
theorem C4_source_suffix_exact :
    lookupConf "source_suffix" =
      some (.dict [(".rst", .str "restructuredtext"),
                   (".md", .str "markdown")]) := by
  simp [lookupConf, lookupKey, confTable, confStmts]

/-- Claim C5: `intersphinx_mapping` binds exactly the project `python`
to the pair of its documentation URL and the default inventory, and
every value in the mapping is such a two-element pair. -/
theorem C5_intersphinx_pairs :
    lookupConf "intersphinx_mapping" =
      some (.dict [("python",
        .tuple [.str "https://docs.python.org/3", .none])]) ∧
    optValIs (dictAll isUrlInventoryPair) (lookupConf "intersphinx_mapping") =
      true := by
  constructor
  · simp [lookupConf, lookupKey, confTable, confStmts]
  · decide

/-- Claim C6: the project name, theme name and release version are
scalar strings, and the declared project name is `agentic-control`. -/
theorem C6_scalar_metadata :
    lookupConf "project" = some (.str "agentic-control") ∧
    lookupConf "html_theme" = some (.str "sphinx_rtd_theme") ∧
    lookupConf "release" = some (.str "1.1.0") := by
  refine ⟨?_, ?_, ?_⟩ <;> simp [lookupConf, lookupKey, confTable, confStmts]

/-- Claim C7: the extension list, templates path, exclusion patterns
and static-file paths are each bound to an ordered sequence all of
whose elements are strings. -/
theorem C7_string_sequences :
    optValIs isStrListVal (lookupConf "extensions") = true ∧
    optValIs isStrListVal (lookupConf "templates_path") = true ∧
    optValIs isStrListVal (lookupConf "exclude_patterns") = true ∧
    optValIs isStrListVal (lookupConf "html_static_path") = true := by
  refine ⟨?_, ?_, ?_, ?_⟩ <;> decide

/-- Claim C8: evaluating the configuration module raises no exception:
loading succeeds in every environment (any working directory, initial
`sys.path` and frame of unrelated interpreter state). -/
theorem C8_load_never_fails (cwd : String) (sp : List String)
    (other : List (String × String)) :
    exceptIsOk (confRun cwd sp other) = true := by
  rw [confRun_eq]
  rfl

/-- Claim C9: any two evaluations of the module bind every
configuration key to the same value (the configuration table is a
constant independent of the environment), and the only
environment-dependent effect is the entry prepended at position 0 of
`sys.path`, whose value is `os.path.abspath` of `../python/src`
resolved against the working directory. -/
theorem C9_env_independent (cwd cwd₂ : String) (sp sp₂ : List String)
    (other other₂ : List (String × String)) :
    resultConfig (confRun cwd sp other) =
      resultConfig (confRun cwd₂ sp₂ other₂) ∧
    resultSysPath (confRun cwd sp other) =
      posixAbspath cwd "../python/src" :: sp := by
  rw [confRun_eq cwd sp other, confRun_eq cwd₂ sp₂ other₂]
  exact ⟨rfl, rfl⟩

/-- Claim C10: the configuration fixes numeric limits: the theme option
`navigation_depth` equals 4, and `myst_heading_anchors` equals the
integer 3 (an anchor depth limit, not a boolean toggle). -/
theorem C10_numeric_limits :
    dictGet "navigation_depth" (lookupConf "html_theme_options") =
      some (.int 4) ∧
    lookupConf "myst_heading_anchors" = some (.int 3) := by
  constructor <;> simp [lookupConf, lookupKey, dictGet, confTable, confStmts]
